import Mathlib

/-
Shallow embedding of the account / login-attempt state machine of the
Flask authentication system (src/app.py, src/models.py, src/utils.py,
src/database.py).

Modelling conventions:
* ISO timestamp strings are modelled by the inductive type TimeStr: a
  well-formed string carries its instant as an integer number of seconds
  (TimeStr.valid t); any other stored string is TimeStr.malformed s.
  datetime.fromisoformat, which raises ValueError on malformed input and
  is always wrapped in try/except in the source, becomes the Option
  returning fromisoformat.
* Calendar dates (SQLite DATE(ts), datetime.date()) are integer day
  indices; dayOf t = t / 86400 (floor division), so subtracting i days
  from an instant subtracts i from its day index.
* The salted password hash (werkzeug generate_password_hash /
  check_password_hash) is a black box; it is modelled injectively: the
  hash of p is the wrapper PasswordHash.mk p and checking compares the
  wrapped string.
* The sqlite database is a DB record: the users table is a list of User
  rows (dni is UNIQUE, so lookup by dni returns the first match) and the
  activities table is an append-only list of Activity rows.  The
  created_at column is never read by any rule in the source (it is only
  an ORDER BY key for the admin listing), so it is not carried.
* Flask request handlers become functions from the current DB and the
  request fields to a result and the next DB; a missing form field is the
  empty string (request.form.get default).
-/

inductive TimeStr where
  | valid (t : Int)
  | malformed (s : String)
deriving DecidableEq

/-- datetime.fromisoformat: succeeds exactly on well-formed timestamps. -/
def fromisoformat : TimeStr → Option Int
  | .valid t => some t
  | .malformed _ => none

/-- Calendar day index of an instant (seconds since epoch), floor division. -/
def dayOf (t : Int) : Int := Int.fdiv t 86400

structure PasswordHash where
  pw : String
deriving DecidableEq

def generate_password_hash (p : String) : PasswordHash := ⟨p⟩

def check_password_hash (h : PasswordHash) (p : String) : Bool := h.pw == p

/-- A row of the users table (models.py User). -/
structure User where
  dni : String
  password_hash : Option PasswordHash
  status : String
  last_login : Option TimeStr
  login_attempts : Nat
  last_attempt : Option TimeStr
deriving DecidableEq

/-- A row of the activities table; day is the calendar date of its timestamp. -/
structure Activity where
  user_dni : String
  action_type : String
  result : String
  details : Option String
  day : Int
deriving DecidableEq

structure DB where
  users : List User
  activities : List Activity
deriving DecidableEq

/-- app.py line 15. -/
def ADMIN_PASSWORD : String := "Password123!"

/-- app.py line 16. -/
def BLOCKED_STATUSES : List String := ["bloqueado", "pausado", "alertado", "suspendido"]

/-- models.py User.find_by_dni: SELECT * FROM users WHERE dni = ? (dni is UNIQUE). -/
def findByDni (users : List User) (dni : String) : Option User :=
  users.find? (fun u => u.dni == dni)

/-- models.py User.save: UPDATE by dni when the row exists, INSERT otherwise. -/
def saveUser (users : List User) (u : User) : List User :=
  if (findByDni users u.dni).isSome then
    users.map (fun v => if v.dni == u.dni then u else v)
  else
    users ++ [u]

/-- models.py User.log_activity: INSERT INTO activities. -/
def log_activity (db : DB) (dni action_type result : String) (details : Option String)
    (day : Int) : DB :=
  { db with activities := db.activities ++ [⟨dni, action_type, result, details, day⟩] }

/-- Python str truthiness after .strip(): true iff every character is whitespace. -/
def isBlank (s : String) : Bool := s.toList.all Char.isWhitespace

/-- models.py User.validate_dni. -/
def validate_dni (dni : String) : Bool × String :=
  if dni == "" then (false, "El DNI no puede estar vacío")
  else if !(!dni.toList.isEmpty && dni.toList.all Char.isDigit) then
    (false, "El DNI debe contener solo números")
  else if dni.length < 6 || 8 < dni.length then
    (false, "El DNI debe tener entre 6 y 8 dígitos")
  else (true, "DNI válido")

/-- The character class of the special-character regex in User.validate_password. -/
def specialChars : List Char :=
  ['!', '@', '#', '$', '%', '^', '&', '*', '(', ')', ',', '.', '?', '\"', ':',
   '\x7b', '\x7d', '|', '<', '>']

/-- models.py User.validate_password. -/
def validate_password (password : String) : Bool × String :=
  if password.length < 8 || 12 < password.length then
    (false, "La contraseña debe tener entre 8 y 12 caracteres")
  else if !(password.toList.any (fun c => decide ('A' ≤ c) && decide (c ≤ 'Z'))) then
    (false, "La contraseña debe contener al menos una mayúscula")
  else if !(password.toList.any (fun c => specialChars.contains c)) then
    (false, "La contraseña debe contener al menos un carácter especial")
  else (true, "Contraseña válida")

/-- models.py User.check_password. -/
def check_password (u : User) (password : String) : Bool :=
  match u.password_hash with
  | none => false
  | some h => check_password_hash h password

/-- The SQL of utils.py check_consecutive_failed_logins: distinct calendar
days carrying a failed acceso event of the user, restricted to the window
timestamp >= DATE('now', '-5 days'), i.e. day >= today - 5. -/
def failedWindowDays (acts : List Activity) (dni : String) (today : Int) : List Int :=
  ((acts.filter (fun a =>
      a.user_dni == dni && a.action_type == "acceso" && a.result == "fallido"
        && decide (today - 5 ≤ a.day))).map Activity.day).dedup

def insertDescInt (x : Int) : List Int → List Int
  | [] => [x]
  | y :: ys => if y ≤ x then x :: y :: ys else y :: insertDescInt x ys

/-- ORDER BY attempt_date DESC. -/
def sortDescInt : List Int → List Int
  | [] => []
  | x :: xs => insertDescInt x (sortDescInt xs)

/-- The for-loop of check_consecutive_failed_logins: parse each returned
date, skipping (continue) any row whose date raises ValueError. -/
def datesFromRows : List TimeStr → List Int
  | [] => []
  | r :: rs =>
    match fromisoformat r with
    | some d => d :: datesFromRows rs
    | none => datesFromRows rs

/-- utils.py check_consecutive_failed_logins (days = 5). -/
def check_consecutive_failed_logins (acts : List Activity) (dni : String) (today : Int) : Bool :=
  let days : Nat := 5
  let recent_attempts := (sortDescInt (failedWindowDays acts dni today)).take days
  if days ≤ recent_attempts.length then
    let expected_dates := (List.range days).map (fun (i : Nat) => today - (i : Int))
    let actual_dates := datesFromRows ((recent_attempts.take days).map TimeStr.valid)
    actual_dates == expected_dates
  else false

/-- utils.py update_user_status_based_on_rules, lines 76-91: the next status
of the user (the caller then persists it with save). -/
def rulesNextStatus (u : User) (acts : List Activity) (now : Int) : String :=
  match u.last_login with
  | some ts =>
    match fromisoformat ts with
    | some t => if 180 * 86400 < now - t then "pausado" else u.status
    | none => u.status
  | none =>
    if check_consecutive_failed_logins acts u.dni (dayOf now) then "alertado" else u.status

/-- models.py lines 136-144: the blocking test of update_login_attempt,
applied to the login_attempts counter and last_attempt field as they stand
when the test runs (i.e. after both were updated). -/
def blockCheck (attempts : Nat) (last_attempt : Option TimeStr) (now : Int) : Bool :=
  if 5 ≤ attempts then
    match last_attempt with
    | some ts =>
      match fromisoformat ts with
      | some t => decide (now - t < 60)
      | none => false
    | none => false
  else false

/-- models.py User.update_login_attempt (field updates only; the caller
persists and logs). Note the source overwrites last_attempt with now BEFORE
running the 60-second window test on it. -/
def update_login_attempt (u : User) (success : Bool) (now : Int) : User :=
  if success then
    { u with login_attempts := 0, last_login := some (.valid now), status := "activo" }
  else
    let u' := { u with login_attempts := u.login_attempts + 1,
                       last_attempt := some (.valid now) }
    if blockCheck u'.login_attempts u'.last_attempt now then
      { u' with status := "bloqueado" }
    else u'

inductive LoginResult where
  | missingFields
  | notFound
  | deniedStatus (st : String)
  | wrongPassword
  | success
deriving DecidableEq

/-- app.py login route (POST path). -/
def login (db : DB) (dni password : String) (now : Int) : LoginResult × DB :=
  if dni == "" || password == "" then (.missingFields, db)
  else
    match findByDni db.users dni with
    | none => (.notFound, db)
    | some user0 =>
      let user := { user0 with status := rulesNextStatus user0 db.activities now }
      let db1 := { db with users := saveUser db.users user }
      if BLOCKED_STATUSES.contains user.status then
        let db2 := log_activity db1 user.dni "acceso" "fallido"
          (some ("Usuario " ++ user.status)) (dayOf now)
        (.deniedStatus user.status, db2)
      else if check_password user password then
        let user' := update_login_attempt user true now
        let db2 := { db1 with users := saveUser db1.users user' }
        let db3 := log_activity db2 user'.dni "acceso" "exitoso" none (dayOf now)
        (.success, db3)
      else
        let user' := update_login_attempt user false now
        let db2 := { db1 with users := saveUser db1.users user' }
        let db3 := log_activity db2 user'.dni "acceso" "fallido" none (dayOf now)
        (.wrongPassword, db3)

inductive RegResult where
  | missingFields
  | badDni
  | passwordMismatch
  | badPassword
  | alreadyExists
  | success
deriving DecidableEq

/-- app.py register route (POST path). -/
def register (db : DB) (dni password confirm_password : String) (now : Int) : RegResult × DB :=
  if isBlank dni || isBlank password || isBlank confirm_password then (.missingFields, db)
  else if !(validate_dni dni).1 then (.badDni, db)
  else if password != confirm_password then (.passwordMismatch, db)
  else if !(validate_password password).1 then (.badPassword, db)
  else
    match findByDni db.users dni with
    | some _ => (.alreadyExists, db)
    | none =>
      let new_user : User :=
        { dni := dni, password_hash := some (generate_password_hash password),
          status := "inmaculado", last_login := none, login_attempts := 0,
          last_attempt := none }
      let db1 := { db with users := saveUser db.users new_user }
      let db2 := log_activity db1 dni "registro" "exitoso" none (dayOf now)
      (.success, db2)

/-- app.py admin_login route: the credential test is equality with the
compiled-in constant; on success an admin_login activity is logged. -/
def admin_login (db : DB) (password : String) (now : Int) : Bool × DB :=
  if password == "" then (false, db)
  else if password == ADMIN_PASSWORD then
    let db1 :=
      match findByDni db.users "admin" with
      | some admin_user => log_activity db admin_user.dni "admin_login" "exitoso" none (dayOf now)
      | none => db
    (true, db1)
  else (false, db)

inductive StatusChangeResult where
  | accessDenied
  | missingFields
  | adminTarget
  | notFound
  | sameStatus
  | success
deriving DecidableEq

/-- app.py change_user_status route. -/
def change_user_status (db : DB) (is_admin : Bool) (dni new_status : String)
    (now : Int) : StatusChangeResult × DB :=
  if !is_admin then (.accessDenied, db)
  else if dni == "" || new_status == "" then (.missingFields, db)
  else if dni == "admin" then (.adminTarget, db)
  else
    match findByDni db.users dni with
    | none => (.notFound, db)
    | some user =>
      if user.status == new_status then (.sameStatus, db)
      else
        let db1 := { db with users := saveUser db.users { user with status := new_status } }
        let db2 :=
          match findByDni db1.users "admin" with
          | some admin_user =>
            log_activity db1 admin_user.dni "cambio_estado" "admin-ok"
              (some ("Usuario " ++ dni ++ " -> " ++ new_status)) (dayOf now)
          | none => db1
        (.success, db2)

inductive AdminPwResult where
  | accessDenied
  | missingFields
  | wrongCurrent
  | newMismatch
  | badPassword
  | success
deriving DecidableEq

/-- app.py change_admin_password route: validates everything, logs an
activity, returns success — but updates no stored credential. -/
def change_admin_password (db : DB) (is_admin : Bool)
    (current_password new_password confirm_password : String) (now : Int) :
    AdminPwResult × DB :=
  if !is_admin then (.accessDenied, db)
  else if current_password == "" || new_password == "" || confirm_password == "" then
    (.missingFields, db)
  else if current_password != ADMIN_PASSWORD then (.wrongCurrent, db)
  else if new_password != confirm_password then (.newMismatch, db)
  else if !(validate_password new_password).1 then (.badPassword, db)
  else
    let db1 :=
      match findByDni db.users "admin" with
      | some admin_user =>
        log_activity db admin_user.dni "cambio_password_admin" "admin-ok"
          (some "Contraseña de admin cambiada") (dayOf now)
      | none => db
    (.success, db1)

/-- app.py logout route. -/
def logout (db : DB) (session_dni : Option String) (now : Int) : DB :=
  match session_dni with
  | some d =>
    match findByDni db.users d with
    | some user => log_activity db user.dni "logout" "exitoso" none (dayOf now)
    | none => db
  | none => db

/-- The non-administrative operations reachable without an admin session. -/
inductive UserOp where
  | loginOp (dni password : String) (now : Int)
  | registerOp (dni password confirm : String) (now : Int)
  | logoutOp (session_dni : Option String) (now : Int)

def applyOp (db : DB) : UserOp → DB
  | .loginOp d p n => (login db d p n).2
  | .registerOp d p c n => (register db d p c n).2
  | .logoutOp s n => logout db s n

def applyOps (db : DB) (ops : List UserOp) : DB := ops.foldl applyOp db
/- Concrete fixtures used to instantiate the theorems below on closed inputs. -/

def adminUser : User :=
  { dni := "admin", password_hash := some (generate_password_hash "Password123!"),
    status := "activo", last_login := none, login_attempts := 0, last_attempt := none }

def uBlockedFix : User :=
  { dni := "111111", password_hash := some (generate_password_hash "Secreta1!"),
    status := "bloqueado", last_login := none, login_attempts := 0, last_attempt := none }

def dbBlockedFix : DB := { users := [uBlockedFix], activities := [] }

def uStaleFix : User :=
  { dni := "222222", password_hash := some (generate_password_hash "Abc12345!"),
    status := "activo", last_login := some (.valid 0), login_attempts := 0,
    last_attempt := none }

def dbStaleFix : DB := { users := [uStaleFix], activities := [] }

def uNeverFix : User :=
  { dni := "333333", password_hash := some (generate_password_hash "Abc12345!"),
    status := "inmaculado", last_login := none, login_attempts := 0, last_attempt := none }

def actsFiveDays : List Activity :=
  [⟨"333333", "acceso", "fallido", none, 100⟩,
   ⟨"333333", "acceso", "fallido", none, 99⟩,
   ⟨"333333", "acceso", "fallido", none, 98⟩,
   ⟨"333333", "acceso", "fallido", none, 97⟩,
   ⟨"333333", "acceso", "fallido", none, 96⟩]

def uMalformedFix : User :=
  { dni := "444444", password_hash := some (generate_password_hash "Abc12345!"),
    status := "activo", last_login := some (.malformed "not-a-date"), login_attempts := 0,
    last_attempt := none }

def uActiveFix : User :=
  { dni := "555555", password_hash := some (generate_password_hash "Abc12345!"),
    status := "activo", last_login := none, login_attempts := 0, last_attempt := none }

def dbAdminFix : DB := { users := [adminUser, uActiveFix], activities := [] }

def dbEmptyFix : DB := { users := [], activities := [] }

theorem findByDni_cons (a : User) (as : List User) (d : String) :
    findByDni (a :: as) d = if a.dni == d then some a else findByDni as d := by
  by_cases h : a.dni == d
  · simp [findByDni, List.find?_cons_of_pos, h]
  · simp [findByDni, List.find?_cons_of_neg, h]

theorem findByDni_eq_dni {l : List User} {d : String} {u : User}
    (h : findByDni l d = some u) : u.dni = d := by
  have := List.find?_some h
  simpa using this

theorem findByDni_append_some {l : List User} {d : String} {w : User} (u : User)
    (h : findByDni l d = some w) : findByDni (l ++ [u]) d = some w := by
  induction l with
  | nil => simp [findByDni] at h
  | cons a as ih =>
    rw [findByDni_cons] at h
    rw [List.cons_append, findByDni_cons]
    by_cases hpa : a.dni == d
    · simpa [hpa] using h
    · simp only [hpa, Bool.false_eq_true, if_false] at h ⊢
      exact ih h

theorem findByDni_append_none {l : List User} {d : String}
    (h : findByDni l d = none) (u : User) :
    findByDni (l ++ [u]) d = if u.dni == d then some u else none := by
  induction l with
  | nil => simp [findByDni]
  | cons a as ih =>
    rw [findByDni_cons] at h
    rw [List.cons_append, findByDni_cons]
    by_cases hpa : a.dni == d
    · simp [hpa] at h
    · simp only [hpa, Bool.false_eq_true, if_false] at h ⊢
      exact ih h

theorem findByDni_map_update_self {l : List User} {u : User}
    (h : (findByDni l u.dni).isSome = true) :
    findByDni (l.map (fun v => if v.dni == u.dni then u else v)) u.dni = some u := by
  induction l with
  | nil => simp [findByDni] at h
  | cons a as ih =>
    rw [findByDni_cons] at h
    rw [List.map_cons, findByDni_cons]
    by_cases hpa : a.dni == u.dni
    · simp [hpa]
    · simp only [hpa, Bool.false_eq_true, if_false] at h ⊢
      exact ih h

theorem findByDni_map_update_other {l : List User} {d : String}
    (u : User) (hu : u.dni ≠ d) :
    findByDni (l.map (fun v => if v.dni == u.dni then u else v)) d = findByDni l d := by
  induction l with
  | nil => simp [findByDni]
  | cons a as ih =>
    rw [List.map_cons, findByDni_cons, findByDni_cons]
    by_cases hrep : a.dni == u.dni
    · have ha : (a.dni == d) = false := by
        have h1 : a.dni = u.dni := by simpa using hrep
        simp [h1, hu]
      have hu' : (u.dni == d) = false := by simpa using hu
      rw [if_pos hrep]
      simp only [hu', ha, Bool.false_eq_true, if_false]
      exact ih
    · simp only [hrep, Bool.false_eq_true, if_false]
      by_cases hpa : a.dni == d
      · simp [hpa]
      · simp only [hpa, Bool.false_eq_true, if_false]
        exact ih

theorem findByDni_save_self (l : List User) (u : User) :
    findByDni (saveUser l u) u.dni = some u := by
  unfold saveUser
  cases h : findByDni l u.dni with
  | some w =>
    simp only [h, Option.isSome_some, if_true]
    exact findByDni_map_update_self (by simp [h])
  | none =>
    simp only [h, Option.isSome_none, Bool.false_eq_true, if_false]
    rw [findByDni_append_none h u]
    simp

theorem findByDni_save_other (l : List User) (u : User) {d : String} (hd : u.dni ≠ d) :
    findByDni (saveUser l u) d = findByDni l d := by
  unfold saveUser
  cases h : findByDni l u.dni with
  | some w =>
    simp only [h, Option.isSome_some, if_true]
    exact findByDni_map_update_other u hd
  | none =>
    simp only [h, Option.isSome_none, Bool.false_eq_true, if_false]
    cases h2 : findByDni l d with
    | some w => exact findByDni_append_some u h2
    | none =>
      rw [findByDni_append_none h2 u]
      simp [show (u.dni == d) = false by simpa using hd]
theorem mem_insertDescInt {y x : Int} {l : List Int} :
    y ∈ insertDescInt x l ↔ y = x ∨ y ∈ l := by
  induction l with
  | nil => simp [insertDescInt]
  | cons a as ih =>
    unfold insertDescInt
    by_cases h : a ≤ x
    · simp [h]
    · simp only [h, if_false]
      simp [ih]
      tauto

theorem mem_sortDescInt {x : Int} {l : List Int} :
    x ∈ sortDescInt l ↔ x ∈ l := by
  induction l with
  | nil => simp [sortDescInt]
  | cons a as ih =>
    unfold sortDescInt
    rw [mem_insertDescInt]
    simp [ih]

theorem datesFromRows_map_valid (l : List Int) :
    datesFromRows (l.map TimeStr.valid) = l := by
  induction l with
  | nil => rfl
  | cons a as ih => simp [datesFromRows, fromisoformat, ih]

theorem rulesNextStatus_cases (u : User) (acts : List Activity) (now : Int) :
    rulesNextStatus u acts now = "pausado" ∨ rulesNextStatus u acts now = "alertado" ∨
      rulesNextStatus u acts now = u.status := by
  unfold rulesNextStatus
  cases hll : u.last_login with
  | some ts =>
    cases hts : fromisoformat ts with
    | some t =>
      simp only [hts]
      by_cases h : 180 * 86400 < now - t
      · rw [if_pos h]
        left; rfl
      · rw [if_neg h]
        right; right; rfl
    | none =>
      simp only [hts]
      right; right; trivial
  | none =>
    by_cases h : check_consecutive_failed_logins acts u.dni (dayOf now)
    · rw [if_pos h]
      right; left; rfl
    · rw [if_neg h]
      right; right; rfl

theorem check_consecutive_true_mem {acts : List Activity} {dni : String} {today : Int}
    (h : check_consecutive_failed_logins acts dni today = true) :
    ∀ i : Nat, i < 5 → (today - (i : Int)) ∈ failedWindowDays acts dni today := by
  intro i hi
  unfold check_consecutive_failed_logins at h
  simp only at h
  by_cases hlen : 5 ≤ ((sortDescInt (failedWindowDays acts dni today)).take 5).length
  · rw [if_pos hlen] at h
    have heq := eq_of_beq h
    rw [List.take_take, Nat.min_self, datesFromRows_map_valid] at heq
    have hmem : today - (i : Int) ∈ (List.range 5).map (fun (j : Nat) => today - (j : Int)) :=
      List.mem_map_of_mem _ (List.mem_range.mpr hi)
    rw [← heq] at hmem
    exact mem_sortDescInt.mp (List.mem_of_mem_take hmem)
  · rw [if_neg hlen] at h
    exact absurd h (by simp)
theorem contains_blocked_iff (s : String) :
    BLOCKED_STATUSES.contains s = true ↔ s ∈ BLOCKED_STATUSES := by
  simp

theorem rulesNextStatus_blocked {u : User} {acts : List Activity} {now : Int}
    (h : u.status ∈ BLOCKED_STATUSES) :
    rulesNextStatus u acts now ∈ BLOCKED_STATUSES := by
  rcases rulesNextStatus_cases u acts now with h1 | h1 | h1 <;> rw [h1]
  · simp [BLOCKED_STATUSES]
  · simp [BLOCKED_STATUSES]
  · exact h

theorem login_denied (db : DB) (dni p : String) (now : Int) (u : User)
    (hd : (dni == "") = false) (hp : (p == "") = false)
    (hf : findByDni db.users dni = some u)
    (hg : BLOCKED_STATUSES.contains (rulesNextStatus u db.activities now) = true) :
    login db dni p now =
      (.deniedStatus (rulesNextStatus u db.activities now),
       { users := saveUser db.users { u with status := rulesNextStatus u db.activities now },
         activities := db.activities ++
           [⟨u.dni, "acceso", "fallido",
             some ("Usuario " ++ rulesNextStatus u db.activities now), dayOf now⟩] }) := by
  unfold login
  simp only [hd, hp, Bool.or_self, Bool.false_eq_true, if_false, hf]
  simp only [hg, if_pos, log_activity]
/-- C1: the claim states that on a failed attempt the account is blocked iff
the incremented counter is at least 5 AND a prior failed attempt lies within
the last 60 seconds, the window being judged against the PREVIOUS
last_attempt value.  The source overwrites last_attempt with now before
running the window test, so the test compares now with now and always
passes: a 5th failure is blocked even when the previous failure is 7200
seconds old, while the very same window test applied to the previous
last_attempt value rejects it. -/
theorem C1_blocks_despite_old_prior_attempt :
    (update_login_attempt
      { dni := "123456", password_hash := some (generate_password_hash "Abc12345!"),
        status := "activo", last_login := none, login_attempts := 4,
        last_attempt := some (.valid 0) } false 7200).status = "bloqueado" ∧
    blockCheck 5 (some (.valid 0)) 7200 = false := by
  constructor <;> rfl

/-- C2: if, after the pre-gate rule evaluation, the user's status lies in
BLOCKED_STATUSES, the login attempt is rejected with that status, the
outcome does not depend on the submitted password, and a failed acceso
audit event annotated with the blocking status is recorded. -/
theorem C2_gate_rejects_without_password_check
    (db : DB) (dni p p' : String) (now : Int) (u : User)
    (hd : (dni == "") = false) (hp : (p == "") = false) (hp' : (p' == "") = false)
    (hf : findByDni db.users dni = some u)
    (hg : BLOCKED_STATUSES.contains (rulesNextStatus u db.activities now) = true) :
    (login db dni p now).1 = .deniedStatus (rulesNextStatus u db.activities now) ∧
    login db dni p now = login db dni p' now ∧
    (login db dni p now).2.activities = db.activities ++
      [⟨u.dni, "acceso", "fallido",
        some ("Usuario " ++ rulesNextStatus u db.activities now), dayOf now⟩] := by
  rw [login_denied db dni p now u hd hp hf hg, login_denied db dni p' now u hd hp' hf hg]
  exact ⟨rfl, rfl, rfl⟩

/-- Witness for C2 at a concrete blocked account. -/
theorem C2_witness :
    (login dbBlockedFix "111111" "guess" 0).1 =
      .deniedStatus (rulesNextStatus uBlockedFix dbBlockedFix.activities 0) ∧
    login dbBlockedFix "111111" "guess" 0 = login dbBlockedFix "111111" "other" 0 ∧
    (login dbBlockedFix "111111" "guess" 0).2.activities = dbBlockedFix.activities ++
      [⟨uBlockedFix.dni, "acceso", "fallido",
        some ("Usuario " ++ rulesNextStatus uBlockedFix dbBlockedFix.activities 0), dayOf 0⟩] :=
  C2_gate_rejects_without_password_check dbBlockedFix "111111" "guess" "other" 0 uBlockedFix
    rfl rfl rfl rfl rfl

/-- C3: an account whose last_login parses to an instant more than 180 days
before now is set to pausado by the pre-gate rule evaluation, the change is
persisted, and the attempt is then denied by the gate. -/
theorem C3_stale_account_paused_then_denied
    (db : DB) (dni p : String) (now : Int) (u : User) (ts : TimeStr) (t : Int)
    (hd : (dni == "") = false) (hp : (p == "") = false)
    (hf : findByDni db.users dni = some u)
    (hll : u.last_login = some ts) (hts : fromisoformat ts = some t)
    (hold : 180 * 86400 < now - t) :
    rulesNextStatus u db.activities now = "pausado" ∧
    (login db dni p now).1 = .deniedStatus "pausado" ∧
    findByDni (login db dni p now).2.users dni = some { u with status := "pausado" } := by
  have hrules : rulesNextStatus u db.activities now = "pausado" := by
    unfold rulesNextStatus
    simp only [hll, hts]
    rw [if_pos hold]
  have hg : BLOCKED_STATUSES.contains (rulesNextStatus u db.activities now) = true := by
    rw [hrules]; rfl
  have hld := login_denied db dni p now u hd hp hf hg
  refine ⟨hrules, ?_, ?_⟩
  · rw [hld, hrules]
  · rw [hld, hrules]
    have hudni : u.dni = dni := findByDni_eq_dni hf
    rw [← hudni]
    exact findByDni_save_self db.users ({ u with status := "pausado" })

/-- Witness for C3: last_login 181 days in the past. -/
theorem C3_witness :
    rulesNextStatus uStaleFix dbStaleFix.activities (181 * 86400) = "pausado" ∧
    (login dbStaleFix "222222" "Abc12345!" (181 * 86400)).1 = .deniedStatus "pausado" ∧
    findByDni (login dbStaleFix "222222" "Abc12345!" (181 * 86400)).2.users "222222" =
      some { uStaleFix with status := "pausado" } :=
  C3_stale_account_paused_then_denied dbStaleFix "222222" "Abc12345!" (181 * 86400)
    uStaleFix (.valid 0) 0 rfl rfl rfl rfl rfl (by decide)
/-- C6: a password violating any policy rule makes register reject, with no
user persisted and no state mutated at all. -/
theorem C6_bad_password_register_rejects
    (db : DB) (dni p confirm : String) (now : Int)
    (hbad : (validate_password p).1 = false) :
    (register db dni p confirm now).2 = db ∧
    (register db dni p confirm now).1 ≠ RegResult.success := by
  unfold register
  by_cases h1 : (isBlank dni || isBlank p || isBlank confirm) = true
  · rw [if_pos h1]
    exact ⟨rfl, by simp⟩
  · rw [if_neg h1]
    by_cases h2 : (!(validate_dni dni).1) = true
    · rw [if_pos h2]
      exact ⟨rfl, by simp⟩
    · rw [if_neg h2]
      by_cases h3 : (p != confirm) = true
      · rw [if_pos h3]
        exact ⟨rfl, by simp⟩
      · rw [if_neg h3]
        rw [if_pos (show (!(validate_password p).1) = true by simp [hbad])]
        exact ⟨rfl, by simp⟩

/-- Witness for C6: a policy-violating password (too short, no special
character) leaves the database unchanged. -/
theorem C6_witness :
    (validate_password "abc").1 = false ∧
    (register dbEmptyFix "123456" "abc" "abc" 0).2 = dbEmptyFix ∧
    (register dbEmptyFix "123456" "abc" "abc" 0).1 ≠ RegResult.success := by
  refine ⟨by decide, ?_⟩
  exact C6_bad_password_register_rejects dbEmptyFix "123456" "abc" "abc" 0 (by decide)

/-- C7: change_user_status always fails on target admin (whatever the
session), fails on a missing account and on an unchanged status, and
otherwise writes the new status directly and logs a cambio_estado event. -/
theorem C7_change_status_contract
    (db : DB) (ia : Bool) (dni st : String) (now : Int) :
    ((change_user_status db ia "admin" st now).1 ≠ .success ∧
      (change_user_status db ia "admin" st now).2 = db) ∧
    (ia = true → (dni == "") = false → (st == "") = false → dni ≠ "admin" →
      findByDni db.users dni = none →
      change_user_status db ia dni st now = (.notFound, db)) ∧
    (∀ u, ia = true → (dni == "") = false → (st == "") = false → dni ≠ "admin" →
      findByDni db.users dni = some u → u.status = st →
      change_user_status db ia dni st now = (.sameStatus, db)) ∧
    (∀ u a, ia = true → (dni == "") = false → (st == "") = false → dni ≠ "admin" →
      findByDni db.users dni = some u → u.status ≠ st →
      findByDni db.users "admin" = some a →
      (change_user_status db ia dni st now).1 = .success ∧
      findByDni (change_user_status db ia dni st now).2.users dni =
        some { u with status := st } ∧
      (change_user_status db ia dni st now).2.activities = db.activities ++
        [⟨"admin", "cambio_estado", "admin-ok",
          some ("Usuario " ++ dni ++ " -> " ++ st), dayOf now⟩]) := by
  refine ⟨?_, ?_, ?_, ?_⟩
  · unfold change_user_status
    cases ia with
    | false => exact ⟨by simp, rfl⟩
    | true =>
      simp only [Bool.not_true, Bool.false_eq_true, if_false]
      by_cases hst : (st == "") = true
      · rw [if_pos (by simp [hst])]
        exact ⟨by simp, rfl⟩
      · rw [if_neg (by simp [hst]), if_pos (by simp)]
        exact ⟨by simp, rfl⟩
  · intro hia hd hst hna hf
    subst hia
    unfold change_user_status
    simp only [Bool.not_true, Bool.false_eq_true, if_false]
    rw [if_neg (by simp [hd, hst]), if_neg (by simp [hna])]
    simp only [hf]
  · intro u hia hd hst hna hf hsame
    subst hia
    unfold change_user_status
    simp only [Bool.not_true, Bool.false_eq_true, if_false]
    rw [if_neg (by simp [hd, hst]), if_neg (by simp [hna])]
    simp only [hf]
    rw [if_pos (show (u.status == st) = true by simp [hsame])]
  · intro u a hia hd hst hna hf hdiff hadm
    subst hia
    have hudni : u.dni = dni := findByDni_eq_dni hf
    have hadmdni : a.dni = "admin" := findByDni_eq_dni hadm
    have hfind1 : findByDni (saveUser db.users { u with status := st }) "admin" = some a := by
      rw [findByDni_save_other db.users { u with status := st }
        (show ({ u with status := st } : User).dni ≠ "admin" by
          show u.dni ≠ "admin"
          rw [hudni]; exact hna)]
      exact hadm
    unfold change_user_status
    simp only [Bool.not_true, Bool.false_eq_true, if_false]
    rw [if_neg (by simp [hd, hst]), if_neg (by simp [hna])]
    simp only [hf]
    rw [if_neg (show ¬(u.status == st) = true by simp [hdiff])]
    simp only [hfind1, log_activity]
    refine ⟨trivial, ?_, ?_⟩
    · rw [← hudni]
      exact findByDni_save_self db.users ({ u with status := st })
    · simp only [hadmdni]
/-- Witness for C7: failure on target admin and a concrete successful change. -/
theorem C7_witness :
    ((change_user_status dbAdminFix true "admin" "activo" 0).1 ≠ .success ∧
      (change_user_status dbAdminFix true "admin" "activo" 0).2 = dbAdminFix) ∧
    ((change_user_status dbAdminFix true "555555" "suspendido" 0).1 = .success ∧
      findByDni (change_user_status dbAdminFix true "555555" "suspendido" 0).2.users
          "555555" = some { uActiveFix with status := "suspendido" } ∧
      (change_user_status dbAdminFix true "555555" "suspendido" 0).2.activities =
        dbAdminFix.activities ++
          [⟨"admin", "cambio_estado", "admin-ok",
            some ("Usuario " ++ "555555" ++ " -> " ++ "suspendido"), dayOf 0⟩]) := by
  constructor
  · exact (C7_change_status_contract dbAdminFix true "x" "activo" 0).1
  · exact (C7_change_status_contract dbAdminFix true "555555" "suspendido" 0).2.2.2
      uActiveFix adminUser rfl (by decide) (by decide) (by decide) (by decide)
      (by decide) (by decide)

/-- C8: malformed stored timestamps never abort rule evaluation: a user whose
last_login does not parse keeps their status under the pre-gate rules, a
malformed date row in the consecutive-days scan is skipped and the scan
continues, and the post-failure blocking test treats an unparseable
last_attempt as not satisfied. -/
theorem C8_malformed_timestamps_degrade
    (u : User) (acts : List Activity) (now : Int) (s : String)
    (hll : u.last_login = some (.malformed s)) :
    rulesNextStatus u acts now = u.status ∧
    (∀ l1 l2 : List TimeStr, ∀ s' : String,
      datesFromRows (l1 ++ .malformed s' :: l2) = datesFromRows (l1 ++ l2)) ∧
    (∀ attempts : Nat, ∀ s' : String, ∀ n : Int,
      blockCheck attempts (some (.malformed s')) n = false) := by
  refine ⟨?_, ?_, ?_⟩
  · unfold rulesNextStatus
    simp [hll, fromisoformat]
  · intro l1 l2 s'
    induction l1 with
    | nil => simp [datesFromRows, fromisoformat]
    | cons a as ih =>
      cases a <;> simp [datesFromRows, fromisoformat, ih]
  · intro attempts s' n
    unfold blockCheck
    by_cases h : 5 ≤ attempts
    · rw [if_pos h]
      rfl
    · rw [if_neg h]

/-- Witness for C8 at concrete malformed timestamps. -/
theorem C8_witness :
    rulesNextStatus uMalformedFix [] 0 = uMalformedFix.status ∧
    datesFromRows [.valid 3, .malformed "zz", .valid 1] =
      datesFromRows [.valid 3, .valid 1] ∧
    blockCheck 7 (some (.malformed "zz")) 0 = false := by
  have h := C8_malformed_timestamps_degrade uMalformedFix [] 0 "not-a-date" rfl
  exact ⟨h.1, h.2.1 [.valid 3] [.valid 1] "zz", h.2.2 7 "zz" 0⟩

theorem length_insertDescInt (x : Int) (l : List Int) :
    (insertDescInt x l).length = l.length + 1 := by
  induction l with
  | nil => rfl
  | cons a as ih =>
    unfold insertDescInt
    by_cases h : a ≤ x
    · rw [if_pos h]
      rfl
    · rw [if_neg h]
      simp [ih]

theorem length_sortDescInt (l : List Int) : (sortDescInt l).length = l.length := by
  induction l with
  | nil => rfl
  | cons a as ih =>
    unfold sortDescInt
    rw [length_insertDescInt, ih]
    rfl

theorem check_consecutive_true_len {acts : List Activity} {dni : String} {today : Int}
    (h : check_consecutive_failed_logins acts dni today = true) :
    5 ≤ (failedWindowDays acts dni today).length := by
  unfold check_consecutive_failed_logins at h
  simp only at h
  by_cases hlen : 5 ≤ ((sortDescInt (failedWindowDays acts dni today)).take 5).length
  · rw [List.length_take, length_sortDescInt] at hlen
    omega
  · rw [if_neg hlen] at h
    exact absurd h (by simp)

theorem mem_failedWindowDays {acts : List Activity} {dni : String} {today d : Int}
    (h : d ∈ failedWindowDays acts dni today) :
    ∃ a ∈ acts, a.user_dni = dni ∧ a.action_type = "acceso" ∧ a.result = "fallido" ∧
      a.day = d := by
  unfold failedWindowDays at h
  rw [List.mem_dedup] at h
  obtain ⟨a, ha, hd⟩ := List.mem_map.mp h
  rw [List.mem_filter] at ha
  obtain ⟨hmem, hp⟩ := ha
  simp only [Bool.and_eq_true, beq_iff_eq, decide_eq_true_eq] at hp
  exact ⟨a, hmem, hp.1.1.1, hp.1.1.2, hp.1.2, hd⟩
/-- C4: the alertado status is newly assigned only when last_login is absent
(the sequential elif makes the rule mutually exclusive with the pausado
rule), exactly when the window scan says so; a true scan guarantees at least
5 distinct failure dates whose 5 most recent are exactly today .. today-4,
each backed by a failed acceso event of the account; and a single missing
day in that window prevents the assignment. -/
theorem C4_flagged_requires_consecutive_days
    (u : User) (acts : List Activity) (now : Int) (hst : u.status ≠ "alertado") :
    (rulesNextStatus u acts now = "alertado" ↔
      (u.last_login = none ∧
        check_consecutive_failed_logins acts u.dni (dayOf now) = true)) ∧
    (check_consecutive_failed_logins acts u.dni (dayOf now) = true →
      5 ≤ (failedWindowDays acts u.dni (dayOf now)).length ∧
      (∀ i : Nat, i < 5 → ∃ a ∈ acts, a.user_dni = u.dni ∧ a.action_type = "acceso" ∧
        a.result = "fallido" ∧ a.day = dayOf now - (i : Int))) ∧
    (∀ i : Nat, i < 5 →
      (∀ a ∈ acts, a.user_dni = u.dni → a.action_type = "acceso" →
        a.result = "fallido" → a.day ≠ dayOf now - (i : Int)) →
      rulesNextStatus u acts now ≠ "alertado") := by
  have hiff : rulesNextStatus u acts now = "alertado" ↔
      (u.last_login = none ∧
        check_consecutive_failed_logins acts u.dni (dayOf now) = true) := by
    constructor
    · intro halert
      unfold rulesNextStatus at halert
      cases hll : u.last_login with
      | some ts =>
        simp only [hll] at halert
        cases hts : fromisoformat ts with
        | some t =>
          simp only [hts] at halert
          split at halert
          · exact absurd halert (by decide)
          · exact absurd halert hst
        | none =>
          simp only [hts] at halert
          exact absurd halert hst
      | none =>
        simp only [hll] at halert
        by_cases hc : check_consecutive_failed_logins acts u.dni (dayOf now) = true
        · exact ⟨rfl, hc⟩
        · rw [if_neg hc] at halert
          exact absurd halert hst
    · rintro ⟨hll, hc⟩
      unfold rulesNextStatus
      simp only [hll]
      rw [if_pos hc]
  have hspec : check_consecutive_failed_logins acts u.dni (dayOf now) = true →
      5 ≤ (failedWindowDays acts u.dni (dayOf now)).length ∧
      (∀ i : Nat, i < 5 → ∃ a ∈ acts, a.user_dni = u.dni ∧ a.action_type = "acceso" ∧
        a.result = "fallido" ∧ a.day = dayOf now - (i : Int)) := by
    intro hc
    refine ⟨check_consecutive_true_len hc, ?_⟩
    intro i hi
    exact mem_failedWindowDays (check_consecutive_true_mem hc i hi)
  refine ⟨hiff, hspec, ?_⟩
  intro i hi hmiss halert
  obtain ⟨_, hc⟩ := hiff.mp halert
  obtain ⟨a, hmem, h1, h2, h3, h4⟩ := (hspec hc).2 i hi
  exact hmiss a hmem h1 h2 h3 h4

/-- Witness for C4: five consecutive failure days ending today flag a
never-logged-in account. -/
theorem C4_witness :
    rulesNextStatus uNeverFix actsFiveDays (100 * 86400) = "alertado" ∧
    5 ≤ (failedWindowDays actsFiveDays uNeverFix.dni (dayOf (100 * 86400))).length := by
  have h := C4_flagged_requires_consecutive_days uNeverFix actsFiveDays (100 * 86400)
    (by decide)
  constructor
  · exact h.1.mpr ⟨rfl, by decide⟩
  · exact (h.2.1 (by decide)).1
theorem whitespace_not_digit (c : Char) (h : c.isWhitespace = true) : c.isDigit = false := by
  simp [Char.isWhitespace] at h
  rcases h with ((h | h) | h) | h <;> subst h <;> decide

theorem digit_not_whitespace (c : Char) (h : c.isDigit = true) : c.isWhitespace = false := by
  cases hw : c.isWhitespace with
  | false => rfl
  | true =>
    rw [whitespace_not_digit c hw] at h
    exact absurd h (by simp)

theorem upper_not_whitespace (c : Char) (h1 : 'A' ≤ c) (h2 : c ≤ 'Z') :
    c.isWhitespace = false := by
  cases hw : c.isWhitespace with
  | false => rfl
  | true =>
    exfalso
    simp [Char.isWhitespace] at hw
    rcases hw with ((h | h) | h) | h <;> subst h <;> revert h1 h2 <;> decide

theorem isBlank_false_of_digits {s : String}
    (hne : s.toList.isEmpty = false) (hd : s.toList.all Char.isDigit = true) :
    isBlank s = false := by
  unfold isBlank
  rw [List.all_eq_true] at hd
  cases hl : s.toList with
  | nil =>
    rw [hl] at hne
    exact absurd hne (by simp)
  | cons c cs =>
    have hc : c.isDigit = true := hd c (by rw [hl]; exact List.mem_cons_self c cs)
    rw [List.all_cons, digit_not_whitespace c hc, Bool.false_and]

theorem isBlank_false_of_upper {p : String}
    (h : (p.toList.any fun c => decide ('A' ≤ c) && decide (c ≤ 'Z')) = true) :
    isBlank p = false := by
  unfold isBlank
  rw [List.any_eq_true] at h
  obtain ⟨c, hc, hup⟩ := h
  rw [Bool.and_eq_true, decide_eq_true_eq, decide_eq_true_eq] at hup
  cases hb : p.toList.all Char.isWhitespace with
  | false => rfl
  | true =>
    rw [List.all_eq_true] at hb
    have hcw := hb c hc
    rw [upper_not_whitespace c hup.1 hup.2] at hcw
    exact absurd hcw (by simp)

theorem validate_dni_parts {dni : String} (h : (validate_dni dni).1 = true) :
    (dni == "") = false ∧ (!dni.toList.isEmpty && dni.toList.all Char.isDigit) = true := by
  unfold validate_dni at h
  by_cases h1 : (dni == "") = true
  · rw [if_pos h1] at h
    exact absurd h (by simp)
  · rw [if_neg h1] at h
    by_cases h2 : (!(!dni.toList.isEmpty && dni.toList.all Char.isDigit)) = true
    · rw [if_pos h2] at h
      exact absurd h (by simp)
    · exact ⟨by simpa using h1, by simpa using h2⟩

theorem validate_password_parts {p : String} (h : (validate_password p).1 = true) :
    (p.length < 8 || 12 < p.length) = false ∧
    (p.toList.any fun c => decide ('A' ≤ c) && decide (c ≤ 'Z')) = true := by
  unfold validate_password at h
  by_cases h1 : (p.length < 8 || 12 < p.length) = true
  · rw [if_pos h1] at h
    exact absurd h (by simp)
  · rw [if_neg h1] at h
    by_cases h2 : (!(p.toList.any fun c => decide ('A' ≤ c) && decide (c ≤ 'Z'))) = true
    · rw [if_pos h2] at h
      exact absurd h (by simp)
    · exact ⟨by simpa using h1, by simpa using h2⟩

theorem update_login_attempt_true (u : User) (now : Int) :
    update_login_attempt u true now =
      { u with login_attempts := 0, last_login := some (.valid now),
               status := "activo" } := rfl
/-- C5: registering a fresh valid identifier with a policy-compliant
password and then authenticating with the same credentials succeeds, and the
stored account ends active with counter 0 and last_login set to the
authentication instant. -/
theorem C5_register_then_authenticate
    (db : DB) (dni p : String) (n1 n2 : Int)
    (hdni : (validate_dni dni).1 = true) (hp : (validate_password p).1 = true)
    (hfresh : findByDni db.users dni = none)
    (hacts : ∀ a ∈ db.activities, a.user_dni ≠ dni) :
    (register db dni p p n1).1 = RegResult.success ∧
    (login (register db dni p p n1).2 dni p n2).1 = LoginResult.success ∧
    findByDni (login (register db dni p p n1).2 dni p n2).2.users dni =
      some { dni := dni, password_hash := some (generate_password_hash p),
             status := "activo", last_login := some (.valid n2), login_attempts := 0,
             last_attempt := none } := by
  obtain ⟨hdne, hdig⟩ := validate_dni_parts hdni
  rw [Bool.and_eq_true] at hdig
  obtain ⟨hdne2, hdigits⟩ := hdig
  have hblankd : isBlank dni = false :=
    isBlank_false_of_digits (by simpa using hdne2) hdigits
  obtain ⟨hplen, hupper⟩ := validate_password_parts hp
  have hblankp : isBlank p = false := isBlank_false_of_upper hupper
  have hpne : (p == "") = false := by
    rw [beq_eq_false_iff_ne]
    intro he
    subst he
    simp at hplen
  have hreg : register db dni p p n1 =
      (.success,
       { users := db.users ++
           [{ dni := dni, password_hash := some (generate_password_hash p),
              status := "inmaculado", last_login := none, login_attempts := 0,
              last_attempt := none }],
         activities := db.activities ++ [⟨dni, "registro", "exitoso", none, dayOf n1⟩] }) := by
    unfold register
    rw [if_neg (by simp [hblankd, hblankp]), if_neg (by simp [hdni]),
        if_neg (by simp), if_neg (by simp [hp])]
    simp only [hfresh]
    unfold saveUser
    simp only [hfresh, Option.isSome_none, Bool.false_eq_true, if_false, log_activity]
  have hfind1 : findByDni (db.users ++
      [{ dni := dni, password_hash := some (generate_password_hash p),
         status := "inmaculado", last_login := none, login_attempts := 0,
         last_attempt := none }]) dni =
      some { dni := dni, password_hash := some (generate_password_hash p),
             status := "inmaculado", last_login := none, login_attempts := 0,
             last_attempt := none } := by
    rw [findByDni_append_none hfresh]
    simp
  have hwd : failedWindowDays
      (db.activities ++ [⟨dni, "registro", "exitoso", none, dayOf n1⟩]) dni (dayOf n2)
      = [] := by
    unfold failedWindowDays
    have hfil : (db.activities ++ [(⟨dni, "registro", "exitoso", none, dayOf n1⟩ : Activity)]).filter
        (fun a => a.user_dni == dni && a.action_type == "acceso" && a.result == "fallido"
          && decide (dayOf n2 - 5 ≤ a.day)) = [] := by
      rw [List.filter_eq_nil_iff]
      intro a ha
      rcases List.mem_append.mp ha with ha | ha
      · simp [hacts a ha]
      · rw [List.mem_singleton] at ha
        subst ha
        simp
    rw [hfil]
    rfl
  have hchk : check_consecutive_failed_logins
      (db.activities ++ [⟨dni, "registro", "exitoso", none, dayOf n1⟩]) dni (dayOf n2)
      = false := by
    unfold check_consecutive_failed_logins
    simp only [hwd]
    rfl
  have hrules : rulesNextStatus
      { dni := dni, password_hash := some (generate_password_hash p),
        status := "inmaculado", last_login := none, login_attempts := 0,
        last_attempt := none }
      (db.activities ++ [⟨dni, "registro", "exitoso", none, dayOf n1⟩]) n2
      = "inmaculado" := by
    unfold rulesNextStatus
    simp only [hchk, Bool.false_eq_true, if_false]
  have hcp : check_password
      { dni := dni, password_hash := some (generate_password_hash p),
        status := "inmaculado", last_login := none, login_attempts := 0,
        last_attempt := none } p = true := by
    simp [check_password, check_password_hash, generate_password_hash]
  have hlogin : login
      { users := db.users ++
          [{ dni := dni, password_hash := some (generate_password_hash p),
             status := "inmaculado", last_login := none, login_attempts := 0,
             last_attempt := none }],
        activities := db.activities ++ [⟨dni, "registro", "exitoso", none, dayOf n1⟩] }
      dni p n2 =
      (.success,
       { users := saveUser
           (saveUser (db.users ++
             [{ dni := dni, password_hash := some (generate_password_hash p),
                status := "inmaculado", last_login := none, login_attempts := 0,
                last_attempt := none }])
             { dni := dni, password_hash := some (generate_password_hash p),
               status := "inmaculado", last_login := none, login_attempts := 0,
               last_attempt := none })
           { dni := dni, password_hash := some (generate_password_hash p),
             status := "activo", last_login := some (.valid n2), login_attempts := 0,
             last_attempt := none },
         activities := db.activities ++ [⟨dni, "registro", "exitoso", none, dayOf n1⟩]
           ++ [⟨dni, "acceso", "exitoso", none, dayOf n2⟩] }) := by
    unfold login
    rw [if_neg (by simp [hdne, hpne])]
    simp only [hfind1, hrules, hcp, update_login_attempt_true, log_activity]
    rfl
  refine ⟨by rw [hreg], ?_, ?_⟩
  · rw [hreg, hlogin]
  · rw [hreg, hlogin]
    exact findByDni_save_self _
      { dni := dni, password_hash := some (generate_password_hash p),
        status := "activo", last_login := some (.valid n2), login_attempts := 0,
        last_attempt := none }

/-- Witness for C5: register 12345678 with Abc12345! on an empty store, then
authenticate. -/
theorem C5_witness :
    (register dbEmptyFix "12345678" "Abc12345!" "Abc12345!" 0).1 = RegResult.success ∧
    (login (register dbEmptyFix "12345678" "Abc12345!" "Abc12345!" 0).2
      "12345678" "Abc12345!" 50).1 = LoginResult.success ∧
    findByDni (login (register dbEmptyFix "12345678" "Abc12345!" "Abc12345!" 0).2
        "12345678" "Abc12345!" 50).2.users "12345678" =
      some { dni := "12345678", password_hash := some (generate_password_hash "Abc12345!"),
             status := "activo", last_login := some (.valid 50), login_attempts := 0,
             last_attempt := none } :=
  C5_register_then_authenticate dbEmptyFix "12345678" "Abc12345!" 0 50
    (by decide) (by decide) rfl (by intro a ha; simp [dbEmptyFix] at ha)
theorem findByDni_save_self_key (l : List User) (u : User) (d : String) (hd : u.dni = d) :
    findByDni (saveUser l u) d = some u := by
  rw [← hd]
  exact findByDni_save_self l u

theorem update_login_attempt_dni (u : User) (s : Bool) (n : Int) :
    (update_login_attempt u s n).dni = u.dni := by
  unfold update_login_attempt
  cases s with
  | true => rfl
  | false =>
    show (if blockCheck (u.login_attempts + 1) (some (TimeStr.valid n)) n = true then
        ({ dni := u.dni, password_hash := u.password_hash, status := "bloqueado",
           last_login := u.last_login, login_attempts := u.login_attempts + 1,
           last_attempt := some (TimeStr.valid n) } : User)
      else
        { dni := u.dni, password_hash := u.password_hash, status := u.status,
          last_login := u.last_login, login_attempts := u.login_attempts + 1,
          last_attempt := some (TimeStr.valid n) }).dni = u.dni
    split
    · rfl
    · rfl

theorem logout_users (db : DB) (s : Option String) (n : Int) :
    (logout db s n).users = db.users := by
  unfold logout
  cases s with
  | none => rfl
  | some d =>
    cases hfd : findByDni db.users d with
    | none => simp only [hfd]
    | some w => simp only [hfd, log_activity]

theorem blocked_preserved_login (db : DB) (d p : String) (n : Int) (dni : String) (u : User)
    (hf : findByDni db.users dni = some u) (hb : u.status ∈ BLOCKED_STATUSES) :
    ∃ u', findByDni (login db d p n).2.users dni = some u' ∧
      u'.status ∈ BLOCKED_STATUSES := by
  unfold login
  by_cases h1 : (d == "" || p == "") = true
  · rw [if_pos h1]
    exact ⟨u, hf, hb⟩
  · rw [if_neg h1]
    cases hfd : findByDni db.users d with
    | none =>
      simp only [hfd]
      exact ⟨u, hf, hb⟩
    | some w =>
      simp only [hfd]
      have hwd : w.dni = d := findByDni_eq_dni hfd
      by_cases hddni : d = dni
      · subst hddni
        have huw : w = u := by
          rw [hf] at hfd
          exact (Option.some_inj.mp hfd).symm
        subst huw
        have hstc : BLOCKED_STATUSES.contains (rulesNextStatus w db.activities n) = true :=
          (contains_blocked_iff _).mpr (rulesNextStatus_blocked hb)
        rw [if_pos (show BLOCKED_STATUSES.contains
          ({ w with status := rulesNextStatus w db.activities n } : User).status = true
            from hstc)]
        refine ⟨{ w with status := rulesNextStatus w db.activities n }, ?_,
          rulesNextStatus_blocked hb⟩
        exact findByDni_save_self_key db.users _ d hwd
      · have hwdni : ({ w with status := rulesNextStatus w db.activities n } : User).dni ≠ dni := by
          show w.dni ≠ dni
          rw [hwd]
          exact hddni
        by_cases hgate : BLOCKED_STATUSES.contains
            ({ w with status := rulesNextStatus w db.activities n } : User).status = true
        · rw [if_pos hgate]
          refine ⟨u, ?_, hb⟩
          have hs := findByDni_save_other db.users
            ({ w with status := rulesNextStatus w db.activities n }) hwdni
          rw [hf] at hs
          exact hs
        · rw [if_neg hgate]
          have h2 : (update_login_attempt
              ({ w with status := rulesNextStatus w db.activities n }) true n).dni ≠ dni := by
            rw [update_login_attempt_dni]
            exact hwdni
          have h2f : (update_login_attempt
              ({ w with status := rulesNextStatus w db.activities n }) false n).dni ≠ dni := by
            rw [update_login_attempt_dni]
            exact hwdni
          have ha := findByDni_save_other db.users
            ({ w with status := rulesNextStatus w db.activities n }) hwdni
          by_cases hpw : check_password
              ({ w with status := rulesNextStatus w db.activities n } : User) p = true
          · rw [if_pos hpw]
            refine ⟨u, ?_, hb⟩
            have hbf := findByDni_save_other
              (saveUser db.users ({ w with status := rulesNextStatus w db.activities n }))
              (update_login_attempt ({ w with status := rulesNextStatus w db.activities n })
                true n) h2
            rw [ha, hf] at hbf
            exact hbf
          · rw [if_neg hpw]
            refine ⟨u, ?_, hb⟩
            have hbf := findByDni_save_other
              (saveUser db.users ({ w with status := rulesNextStatus w db.activities n }))
              (update_login_attempt ({ w with status := rulesNextStatus w db.activities n })
                false n) h2f
            rw [ha, hf] at hbf
            exact hbf

theorem blocked_preserved_register (db : DB) (d p c : String) (n : Int)
    (dni : String) (u : User)
    (hf : findByDni db.users dni = some u) (hb : u.status ∈ BLOCKED_STATUSES) :
    ∃ u', findByDni (register db d p c n).2.users dni = some u' ∧
      u'.status ∈ BLOCKED_STATUSES := by
  unfold register
  by_cases h1 : (isBlank d || isBlank p || isBlank c) = true
  · rw [if_pos h1]
    exact ⟨u, hf, hb⟩
  · rw [if_neg h1]
    by_cases h2 : (!(validate_dni d).1) = true
    · rw [if_pos h2]
      exact ⟨u, hf, hb⟩
    · rw [if_neg h2]
      by_cases h3 : (p != c) = true
      · rw [if_pos h3]
        exact ⟨u, hf, hb⟩
      · rw [if_neg h3]
        by_cases h4 : (!(validate_password p).1) = true
        · rw [if_pos h4]
          exact ⟨u, hf, hb⟩
        · rw [if_neg h4]
          cases hfd : findByDni db.users d with
          | some w =>
            simp only [hfd]
            exact ⟨u, hf, hb⟩
          | none =>
            simp only [hfd]
            have hddni : d ≠ dni := by
              intro he
              subst he
              rw [hf] at hfd
              exact Option.noConfusion hfd
            refine ⟨u, ?_, hb⟩
            have hs := findByDni_save_other db.users
              { dni := d, password_hash := some (generate_password_hash p),
                status := "inmaculado", last_login := none, login_attempts := 0,
                last_attempt := none } hddni
            rw [hf] at hs
            exact hs

theorem blocked_preserved_op (db : DB) (op : UserOp) (dni : String) (u : User)
    (hf : findByDni db.users dni = some u) (hb : u.status ∈ BLOCKED_STATUSES) :
    ∃ u', findByDni (applyOp db op).users dni = some u' ∧
      u'.status ∈ BLOCKED_STATUSES := by
  cases op with
  | loginOp d p n => exact blocked_preserved_login db d p n dni u hf hb
  | registerOp d p c n => exact blocked_preserved_register db d p c n dni u hf hb
  | logoutOp s n =>
    refine ⟨u, ?_, hb⟩
    show findByDni (logout db s n).users dni = some u
    rw [logout_users]
    exact hf
/-- C9: once an account's status lies in the blocking set, no sequence of
non-administrative operations (login attempts, registrations, logouts) can
move it out of that set: the gate stops the success path that would set
activo, the automatic rules assign only statuses inside the set, and a
registration never touches an existing record. -/
theorem C9_blocked_set_invariant
    (ops : List UserOp) (db : DB) (dni : String) (u : User)
    (hf : findByDni db.users dni = some u) (hb : u.status ∈ BLOCKED_STATUSES) :
    ∃ u', findByDni (applyOps db ops).users dni = some u' ∧
      u'.status ∈ BLOCKED_STATUSES := by
  induction ops generalizing db u with
  | nil => exact ⟨u, hf, hb⟩
  | cons op rest ih =>
    obtain ⟨u1, hf1, hb1⟩ := blocked_preserved_op db op dni u hf hb
    exact ih (applyOp db op) u1 hf1 hb1

/-- Witness for C9: a blocked account stays in the blocking set across a
login attempt, an unrelated registration and a logout. -/
theorem C9_witness :
    ∃ u', findByDni (applyOps dbBlockedFix
      [.loginOp "111111" "guess" 0,
       .registerOp "999999" "Abc12345!" "Abc12345!" 5,
       .logoutOp (some "111111") 9]).users "111111" = some u' ∧
      u'.status ∈ BLOCKED_STATUSES :=
  C9_blocked_set_invariant
    [.loginOp "111111" "guess" 0,
     .registerOp "999999" "Abc12345!" "Abc12345!" 5,
     .logoutOp (some "111111") 9]
    dbBlockedFix "111111" uBlockedFix rfl (by decide)

theorem change_admin_password_users (db : DB) (ia : Bool)
    (cur new confirm : String) (now : Int) :
    (change_admin_password db ia cur new confirm now).2.users = db.users := by
  unfold change_admin_password
  repeat' split
  all_goals simp [log_activity]

theorem admin_login_fst (db : DB) (p : String) (n : Int) :
    (admin_login db p n).1 =
      (if p == "" then false else if p == ADMIN_PASSWORD then true else false) := by
  unfold admin_login
  by_cases h1 : (p == "") = true
  · rw [if_pos h1, if_pos h1]
  · rw [if_neg h1, if_neg h1]
    by_cases h2 : (p == ADMIN_PASSWORD) = true
    · rw [if_pos h2, if_pos h2]
    · rw [if_neg h2, if_neg h2]

theorem change_admin_password_acts (db : DB) (ia : Bool)
    (cur new confirm : String) (now : Int) :
    (change_admin_password db ia cur new confirm now).2.activities = db.activities ∨
    (change_admin_password db ia cur new confirm now).2.activities =
      db.activities ++ [⟨"admin", "cambio_password_admin", "admin-ok",
        some "Contraseña de admin cambiada", dayOf now⟩] := by
  unfold change_admin_password
  repeat' split
  all_goals first
  | exact Or.inl rfl
  | (rename_i a heq
     right
     simp [log_activity, findByDni_eq_dni heq])

/-- C10: change_admin_password reports success on a valid request but changes
no credential: the users table (hence every stored password_hash and the
admin record) is untouched, the only state change is at most one appended
audit event, the administrative secret stays the compiled-in constant, and
the outcome of any subsequent admin login is unchanged. -/
theorem C10_admin_password_change_is_noop
    (db : DB) (ia : Bool) (cur new confirm : String) (now : Int) :
    (change_admin_password db ia cur new confirm now).2.users = db.users ∧
    ((change_admin_password db ia cur new confirm now).2.activities = db.activities ∨
      (change_admin_password db ia cur new confirm now).2.activities =
        db.activities ++ [⟨"admin", "cambio_password_admin", "admin-ok",
          some "Contraseña de admin cambiada", dayOf now⟩]) ∧
    ADMIN_PASSWORD = "Password123!" ∧
    (∀ q m, (admin_login (change_admin_password db ia cur new confirm now).2 q m).1 =
      (admin_login db q m).1) ∧
    (ia = true → cur = ADMIN_PASSWORD → (cur == "") = false → (new == "") = false →
      (confirm == "") = false → new = confirm → (validate_password new).1 = true →
      (change_admin_password db ia cur new confirm now).1 = .success) := by
  refine ⟨change_admin_password_users db ia cur new confirm now,
    change_admin_password_acts db ia cur new confirm now, rfl, ?_, ?_⟩
  · intro q m
    rw [admin_login_fst, admin_login_fst]
  · intro hia hcur hc hn hcf heq hvp
    subst hia
    unfold change_admin_password
    rw [if_neg (by simp), if_neg (by simp [hc, hn, hcf]),
        if_neg (by simp [hcur]), if_neg (by simp [heq]),
        if_neg (by simp [hvp])]

/-- Witness for C10: a fully valid admin password change request. -/
theorem C10_witness :
    (change_admin_password dbAdminFix true "Password123!" "NuevaPass1!" "NuevaPass1!" 0).2.users
      = dbAdminFix.users ∧
    (change_admin_password dbAdminFix true "Password123!" "NuevaPass1!" "NuevaPass1!" 0).1
      = .success ∧
    (admin_login
      (change_admin_password dbAdminFix true "Password123!" "NuevaPass1!" "NuevaPass1!" 0).2
      "Password123!" 7).1 = (admin_login dbAdminFix "Password123!" 7).1 := by
  have h := C10_admin_password_change_is_noop dbAdminFix true "Password123!"
    "NuevaPass1!" "NuevaPass1!" 0
  exact ⟨h.1, h.2.2.2.2 rfl rfl (by decide) (by decide) (by decide) rfl (by decide),
    h.2.2.2.1 "Password123!" 7⟩
